import Mathlib

/-!
Verification development for the ESPN fantasy-football dashboard server
(src/server.js).  The data-aggregation layer of the server is embedded
shallowly: the upstream fetches of the league client are externalized as
function arguments, JavaScript numbers carrying fantasy points are
rendered as rationals, and the stable `Array.prototype.sort` is modelled
(for the consistent comparators the server uses) by a stable insertion
sort.  Fallible route handlers return an explicit response datatype
together with a flag recording whether the upstream-fetch phase ran.
-/

universe u

variable {α : Type u}

namespace Hogan

/-- A team record as returned by the provider's `getTeamsAtWeek`. -/
structure Team where
  id : Int
  name : String
  wins : Int
  losses : Int
  ties : Int
  totalPointsScored : ℚ
  regularSeasonPointsAgainst : ℚ
deriving DecidableEq

/-- A player entry of a boxscore roster. -/
structure Player where
  fullName : String
  defaultPosition : String
  proTeamAbbreviation : String
  rosteredPosition : String
  totalPoints : Option ℚ
  projectedPointBreakdown : Option (List (String × ℚ))
deriving DecidableEq

/-- One matchup record of the provider's `getBoxscoreForWeek`. -/
structure Boxscore where
  homeTeamId : Int
  awayTeamId : Int
  homeScore : ℚ
  awayScore : ℚ
  homeRoster : List Player
  awayRoster : List Player
deriving DecidableEq

/-- One entry of `teams.json`: owner display name and the list of
championship years; either field may be absent in the data file, which the
server tolerates through optional chaining. -/
structure OwnerInfo where
  owner : Option String
  wins : Option (List String)
deriving DecidableEq

/-- The static ownership registry `teams.json`, keyed by division name and
then by the team id rendered as a string (`teamsData[division]?.[key]`). -/
def TeamsData := String → String → Option OwnerInfo

/-- League metadata from the provider's `getLeagueInfo`. -/
structure LeagueInfo where
  name : String
  currentScoringPeriodId : Int
  currentMatchupPeriodId : Int
deriving DecidableEq

/-- JavaScript `x || ''` applied to a possibly-absent string. -/
def jsOrEmpty (o : Option String) : String :=
  match o with
  | none => ""
  | some s => if s == "" then "" else s

/-- JavaScript `x || 0` applied to a possibly-absent number. -/
def jsOrZero (o : Option ℚ) : ℚ :=
  match o with
  | none => 0
  | some v => if v == 0 then 0 else v

/-- The championship list emitted by the server:
`ownerInfo?.wins?.filter(year => year !== '') || []`.  The `|| []` only
fires when the optional chain is undefined, since an array is always
truthy. -/
def champsFilter (o : Option (List String)) : List String :=
  match o with
  | none => []
  | some ws => ws.filter (fun year => year != "")

/-- One step of the stable sort: the new element sinks past every element
that does not compare strictly after it, so elements the comparator ties
keep their original relative order. -/
def insertBy (lt : α → α → Bool) (x : α) : List α → List α
  | [] => [x]
  | y :: ys => if lt x y then x :: y :: ys else y :: insertBy lt x ys

/-- JavaScript's stable `Array.prototype.sort` with a consistent comparator
`cmp`, modelled as a stable insertion sort; `lt a b` stands for
`cmp(a, b) < 0`. -/
def jsSort (lt : α → α → Bool) (l : List α) : List α :=
  l.foldl (fun acc x => insertBy lt x acc) []

/-- Decimal value of a run of digit characters. -/
def digitsToNat (cs : List Char) : Nat :=
  cs.foldl (fun n c => n * 10 + (c.toNat - 48)) 0

/-- Modelled from ECMAScript `parseInt` on the decimal strings this server
receives: skip leading spaces, take an optional sign, then the longest
leading run of digits; no digits yields NaN, rendered here as `none`. -/
def parseIntJS (s : String) : Option Int :=
  let cs := s.toList.dropWhile (fun c => c == ' ')
  match cs with
  | [] => none
  | c :: rest =>
    if c == '-' then
      let ds := rest.takeWhile Char.isDigit
      if ds.isEmpty then none else some (-((digitsToNat ds : Nat) : Int))
    else if c == '+' then
      let ds := rest.takeWhile Char.isDigit
      if ds.isEmpty then none else some ((digitsToNat ds : Nat) : Int)
    else
      let ds := cs.takeWhile Char.isDigit
      if ds.isEmpty then none else some ((digitsToNat ds : Nat) : Int)

/-- JavaScript strict equality between a provider team id and a parsed
request id; a NaN id (failed parse) compares unequal to everything. -/
def idEq (tid : Int) (pid : Option Int) : Bool :=
  match pid with
  | some n => tid == n
  | none => false

/-- A standings row of `getLeagueData`. -/
structure Standing where
  id : Int
  name : String
  owner : String
  championships : List String
  wins : Int
  losses : Int
  ties : Int
  points : ℚ
  pointsAgainst : ℚ
deriving DecidableEq

/-- The per-team record built inside the standings `map` of
`getLeagueData` (src/server.js lines 57-70). -/
def mkStanding (td : TeamsData) (division : String) (team : Team) : Standing :=
  let ownerInfo := td division (toString team.id)
  { id := team.id
    name := team.name
    owner := jsOrEmpty (ownerInfo.bind OwnerInfo.owner)
    championships := champsFilter (ownerInfo.bind OwnerInfo.wins)
    wins := team.wins
    losses := team.losses
    ties := team.ties
    points := team.totalPointsScored
    pointsAgainst := team.regularSeasonPointsAgainst }

/-- The standings comparator of `getLeagueData` (lines 71-74):
wins descending, ties broken by total points scored descending. -/
def standingsCmp (a b : Standing) : ℚ :=
  if b.wins ≠ a.wins then ((b.wins : ℚ) - (a.wins : ℚ)) else b.points - a.points

/-- `standingsCmp a b < 0`, the strict precedence test fed to the sort. -/
def standingsLt (a b : Standing) : Bool :=
  decide (standingsCmp a b < 0)

/-- Result shape of `getLeagueData`. -/
structure LeagueData where
  name : String
  currentWeek : Int
  standings : List Standing
deriving DecidableEq

/-- `getLeagueData` (lines 48-81) with the two upstream fetches
externalized into the `leagueInfo` and `teams` arguments. -/
def getLeagueData (td : TeamsData) (division : String) (leagueInfo : LeagueInfo)
    (teams : List Team) : LeagueData :=
  { name := leagueInfo.name
    currentWeek := leagueInfo.currentMatchupPeriodId
    standings := jsSort standingsLt (teams.map (mkStanding td division)) }

/-- Value stored in the `teamMap` object of `getMatchups`. -/
structure TeamMapEntry where
  name : String
  id : Int
deriving DecidableEq

/-- The id-to-team object built by the `forEach` of `getMatchups`
(lines 97-103); a later assignment to the same key overwrites an earlier
one. -/
def buildTeamMap (teams : List Team) : Int → Option TeamMapEntry :=
  teams.foldl
    (fun teamMap team => fun i =>
      if i == team.id then some { name := team.name, id := team.id } else teamMap i)
    (fun _ => none)

/-- JavaScript `teamMap[id]?.name || 'Unknown'`. -/
def jsNameOrM (e : Option TeamMapEntry) : String :=
  match e with
  | none => "Unknown"
  | some x => if x.name == "" then "Unknown" else x.name

/-- One summary row of `getMatchups`. -/
structure MatchupSummary where
  homeTeam : String
  homeTeamId : Int
  homeScore : ℚ
  awayTeam : String
  awayTeamId : Int
  awayScore : ℚ
deriving DecidableEq

/-- The element-wise body of the `scoreboard.map` in `getMatchups`
(lines 105-112). -/
def summarizeOne (teams : List Team) (matchup : Boxscore) : MatchupSummary :=
  let teamMap := buildTeamMap teams
  { homeTeam := jsNameOrM (teamMap matchup.homeTeamId)
    homeTeamId := matchup.homeTeamId
    homeScore := matchup.homeScore
    awayTeam := jsNameOrM (teamMap matchup.awayTeamId)
    awayTeamId := matchup.awayTeamId
    awayScore := matchup.awayScore }

/-- `getMatchups` (lines 84-113) with the upstream fetches externalized. -/
def getMatchups (scoreboard : List Boxscore) (teams : List Team) : List MatchupSummary :=
  scoreboard.map (summarizeOne teams)

/-- The `positionOrder` table of the roster and matchup handlers
(lines 192-195 and 261-264); keys not in the object yield `none`. -/
def positionOrder (s : String) : Option Int :=
  if s = "QB" then some 1
  else if s = "RB" then some 2
  else if s = "WR" then some 3
  else if s = "TE" then some 4
  else if s = "FLEX" then some 5
  else if s = "RB/WR/TE" then some 5
  else if s = "D/ST" then some 6
  else if s = "K" then some 7
  else if s = "Bench" then some 99
  else if s = "IR" then some 100
  else none

/-- JavaScript `positionOrder[slot] || 99`; every value in the table is
truthy, so this is exactly lookup-with-default-99. -/
def slotPrio (s : String) : Int :=
  (positionOrder s).getD 99

/-- One element of the roster handler's `formattedRoster`. -/
structure RosterEntry where
  name : String
  position : String
  proTeam : String
  isStarter : Bool
  slotPosition : String
deriving DecidableEq

/-- The element-wise body of the roster `map` (lines 197-202). -/
def mkRosterEntry (player : Player) : RosterEntry :=
  { name := player.fullName
    position := player.defaultPosition
    proTeam := player.proTeamAbbreviation
    isStarter := player.rosteredPosition != "Bench" && player.rosteredPosition != "IR"
    slotPosition := player.rosteredPosition }

/-- The roster comparator (lines 203-207): starters first, then the slot
priority table. -/
def rosterCmp (a b : RosterEntry) : Int :=
  if a.isStarter && !b.isStarter then -1
  else if !a.isStarter && b.isStarter then 1
  else slotPrio a.slotPosition - slotPrio b.slotPosition

/-- `rosterCmp a b < 0`, the strict precedence test fed to the sort. -/
def rosterLt (a b : RosterEntry) : Bool :=
  decide (rosterCmp a b < 0)

/-- The `formattedRoster` value of the roster handler (lines 197-207). -/
def formattedRoster (roster : List Player) : List RosterEntry :=
  jsSort rosterLt (roster.map mkRosterEntry)

/-- Success payload of the roster handler (lines 209-215). -/
structure RosterPayload where
  teamId : Option Int
  teamName : String
  owner : String
  championships : List String
  roster : List RosterEntry
deriving DecidableEq

/-- Response of the roster route: 400 invalid division, 500 upstream
error, 404 team not found, or the JSON payload. -/
inductive RosterResp where
  | invalidDivision : RosterResp
  | upstreamError : String → RosterResp
  | notFound : RosterResp
  | ok : RosterPayload → RosterResp
deriving DecidableEq

/-- JavaScript `team?.name || 'Unknown'`. -/
def jsNameOrT (t : Option Team) : String :=
  match t with
  | none => "Unknown"
  | some tm => if tm.name == "" then "Unknown" else tm.name

/-- The payload built by the roster handler once a boxscore containing the
team was found (lines 187-215). -/
def mkRosterPayload (td : TeamsData) (division teamId : String) (pid : Option Int)
    (teamBoxscore : Boxscore) (teams : List Team) : RosterPayload :=
  let team := teams.find? (fun t => idEq t.id pid)
  let ownerInfo := td division teamId
  let isHome := idEq teamBoxscore.homeTeamId pid
  let roster := if isHome then teamBoxscore.homeRoster else teamBoxscore.awayRoster
  { teamId := pid
    teamName := jsNameOrT team
    owner := jsOrEmpty (ownerInfo.bind OwnerInfo.owner)
    championships := champsFilter (ownerInfo.bind OwnerInfo.wins)
    roster := formattedRoster roster }

/-- The roster route handler (lines 156-220).  Division validation happens
before the upstream fetches; the Boolean of the result records whether the
upstream-fetch phase ran.  The fetch outcome itself is externalized as an
`Except` argument. -/
def rosterHandler (td : TeamsData) (division teamId : String)
    (fetch : Except String (List Boxscore × List Team)) : RosterResp × Bool :=
  if !((["green", "white"] : List String).contains division) then
    (RosterResp.invalidDivision, false)
  else
    match fetch with
    | Except.error e => (RosterResp.upstreamError e, true)
    | Except.ok (boxscores, teams) =>
      let pid := parseIntJS teamId
      match boxscores.find? (fun box => idEq box.homeTeamId pid || idEq box.awayTeamId pid) with
      | none => (RosterResp.notFound, true)
      | some teamBoxscore =>
        (RosterResp.ok (mkRosterPayload td division teamId pid teamBoxscore teams), true)

/-- One element of the matchup handler's `formatRoster` output. -/
structure MatchupEntry where
  name : String
  position : String
  points : ℚ
  projected : ℚ
deriving DecidableEq

/-- The element-wise body of the matchup-roster `map` (lines 269-275):
points default to 0, projected is the reduce-sum of the breakdown values
or 0 when no breakdown object is present. -/
def mkMatchupEntry (player : Player) : MatchupEntry :=
  { name := player.fullName
    position := player.rosteredPosition
    points := jsOrZero player.totalPoints
    projected :=
      match player.projectedPointBreakdown with
      | some breakdown => (breakdown.map Prod.snd).foldl (fun a b => a + b) 0
      | none => 0 }

/-- The matchup-entry comparator (line 276): slot priority only. -/
def matchupCmp (a b : MatchupEntry) : Int :=
  slotPrio a.position - slotPrio b.position

/-- `matchupCmp a b < 0`, the strict precedence test fed to the sort. -/
def matchupLt (a b : MatchupEntry) : Bool :=
  decide (matchupCmp a b < 0)

/-- The `formatRoster` closure of the matchup handler (lines 266-277):
drop Bench and IR slots, map to display entries, sort by slot priority. -/
def formatRoster (roster : List Player) : List MatchupEntry :=
  jsSort matchupLt
    ((roster.filter
        (fun player => player.rosteredPosition != "Bench" && player.rosteredPosition != "IR")).map
      mkMatchupEntry)

/-- Success payload of the matchup handler (lines 279-290). -/
structure MatchupPayload where
  homeTeam : String
  homeOwner : String
  homeScore : ℚ
  homeRoster : List MatchupEntry
  homeChampionships : List String
  awayTeam : String
  awayOwner : String
  awayScore : ℚ
  awayChampionships : List String
  awayRoster : List MatchupEntry
deriving DecidableEq

/-- Response of the matchup route: 400 invalid division, 500 upstream
error, 404 matchup not found, or the JSON payload. -/
inductive MatchupResp where
  | invalidDivision : MatchupResp
  | upstreamError : String → MatchupResp
  | notFound : MatchupResp
  | ok : MatchupPayload → MatchupResp
deriving DecidableEq

/-- The boxscore lookup of the matchup handler (lines 245-248): the stored
home/away pair must match the requested pair in either orientation. -/
def locateMatchup (boxscores : List Boxscore) (hid aid : Option Int) : Option Boxscore :=
  boxscores.find? (fun box =>
    (idEq box.homeTeamId hid && idEq box.awayTeamId aid) ||
    (idEq box.homeTeamId aid && idEq box.awayTeamId hid))

/-- The payload built by the matchup handler from the located boxscore
(lines 254-290); every home/away field is taken from the boxscore's own
stored orientation, never from the request order. -/
def mkMatchupPayload (td : TeamsData) (division : String) (matchup : Boxscore)
    (teams : List Team) : MatchupPayload :=
  let homeTeam := teams.find? (fun t => t.id == matchup.homeTeamId)
  let awayTeam := teams.find? (fun t => t.id == matchup.awayTeamId)
  { homeTeam := jsNameOrT homeTeam
    homeOwner := jsOrEmpty ((td division (toString matchup.homeTeamId)).bind OwnerInfo.owner)
    homeScore := matchup.homeScore
    homeRoster := formatRoster matchup.homeRoster
    homeChampionships := champsFilter ((td division (toString matchup.homeTeamId)).bind OwnerInfo.wins)
    awayTeam := jsNameOrT awayTeam
    awayOwner := jsOrEmpty ((td division (toString matchup.awayTeamId)).bind OwnerInfo.owner)
    awayScore := matchup.awayScore
    awayChampionships := champsFilter ((td division (toString matchup.awayTeamId)).bind OwnerInfo.wins)
    awayRoster := formatRoster matchup.awayRoster }

/-- The matchup route handler (lines 222-295), with the upstream fetch
externalized; the Boolean of the result records whether the upstream-fetch
phase ran. -/
def matchupHandler (td : TeamsData) (division homeTeamId awayTeamId : String)
    (fetch : Except String (List Boxscore × List Team)) : MatchupResp × Bool :=
  if !((["green", "white"] : List String).contains division) then
    (MatchupResp.invalidDivision, false)
  else
    match fetch with
    | Except.error e => (MatchupResp.upstreamError e, true)
    | Except.ok (boxscores, teams) =>
      match locateMatchup boxscores (parseIntJS homeTeamId) (parseIntJS awayTeamId) with
      | none => (MatchupResp.notFound, true)
      | some matchup =>
        (MatchupResp.ok (mkMatchupPayload td division matchup teams), true)

/-- Spec-side definition, following the words of the specification: the
championship list with exactly the empty-string entries removed and all
other entries preserved in their original order. -/
def removeEmpties : List String → List String
  | [] => []
  | y :: ys => if y = "" then removeEmpties ys else y :: removeEmpties ys

/-- Spec-side accessor: the raw championship-year list a registry entry
holds for a key, empty when the entry or its list is absent. -/
def rawWins (td : TeamsData) (division key : String) : List String :=
  ((td division key).bind OwnerInfo.wins).getD []

theorem insertBy_perm (lt : α → α → Bool) (x : α) (l : List α) :
    (insertBy lt x l).Perm (x :: l) := by
  induction l with
  | nil => exact List.Perm.refl _
  | cons y ys ih =>
    unfold insertBy
    by_cases h : lt x y = true
    · rw [if_pos h]
    · rw [if_neg h]
      exact (ih.cons y).trans (List.Perm.swap x y ys)

theorem foldl_insertBy_perm (lt : α → α → Bool) (l acc : List α) :
    (List.foldl (fun acc x => insertBy lt x acc) acc l).Perm (acc ++ l) := by
  induction l generalizing acc with
  | nil => simp
  | cons x xs ih =>
    exact (ih (insertBy lt x acc)).trans
      (((insertBy_perm lt x acc).append_right xs).trans List.perm_middle.symm)

theorem jsSort_perm (lt : α → α → Bool) (l : List α) :
    (jsSort lt l).Perm l := by
  simpa using foldl_insertBy_perm lt l []

theorem pairwise_insertBy {lt : α → α → Bool}
    (asym : ∀ a b, lt a b = true → lt b a = false)
    (ltle : ∀ a b c, lt a b = true → lt c b = false → lt a c = true)
    (x : α) {l : List α} (h : l.Pairwise (fun a b => lt b a = false)) :
    (insertBy lt x l).Pairwise (fun a b => lt b a = false) := by
  induction l with
  | nil => simp [insertBy]
  | cons y ys ih =>
    obtain ⟨hy, hys⟩ := List.pairwise_cons.mp h
    unfold insertBy
    by_cases hxy : lt x y = true
    · rw [if_pos hxy]
      refine List.pairwise_cons.mpr ⟨?_, h⟩
      intro z hz
      rcases List.mem_cons.mp hz with rfl | hz
      · exact asym _ _ hxy
      · exact asym _ _ (ltle x y z hxy (hy z hz))
    · rw [if_neg hxy]
      refine List.pairwise_cons.mpr ⟨?_, ih hys⟩
      intro z hz
      rcases List.mem_cons.mp ((insertBy_perm lt x ys).mem_iff.mp hz) with rfl | hz
      · simpa using hxy
      · exact hy z hz

theorem pairwise_foldl_insertBy {lt : α → α → Bool}
    (asym : ∀ a b, lt a b = true → lt b a = false)
    (ltle : ∀ a b c, lt a b = true → lt c b = false → lt a c = true)
    (l : List α) :
    ∀ acc : List α, acc.Pairwise (fun a b => lt b a = false) →
      (List.foldl (fun acc x => insertBy lt x acc) acc l).Pairwise (fun a b => lt b a = false) := by
  induction l with
  | nil => intro acc h; simpa using h
  | cons x xs ih => intro acc h; exact ih _ (pairwise_insertBy asym ltle x h)

theorem pairwise_jsSort {lt : α → α → Bool}
    (asym : ∀ a b, lt a b = true → lt b a = false)
    (ltle : ∀ a b c, lt a b = true → lt c b = false → lt a c = true)
    (l : List α) :
    (jsSort lt l).Pairwise (fun a b => lt b a = false) :=
  pairwise_foldl_insertBy asym ltle l [] (by simp)

theorem filter_insertBy_neg {lt : α → α → Bool} {p : α → Bool} {x : α}
    (hx : p x = false) (l : List α) :
    (insertBy lt x l).filter p = l.filter p := by
  induction l with
  | nil => simp [insertBy, hx]
  | cons y ys ih =>
    unfold insertBy
    by_cases hxy : lt x y = true
    · rw [if_pos hxy]
      simp [List.filter_cons, hx]
    · rw [if_neg hxy]
      cases hpy : p y <;> simp [List.filter_cons, hpy, ih]

theorem filter_insertBy_pos {lt : α → α → Bool}
    (ltle : ∀ a b c, lt a b = true → lt c b = false → lt a c = true)
    {p : α → Bool} {x : α}
    (hx : p x = true) (hcls : ∀ b, p b = true → lt x b = false)
    {l : List α} (hs : l.Pairwise (fun a b => lt b a = false)) :
    (insertBy lt x l).filter p = l.filter p ++ [x] := by
  induction l with
  | nil => simp [insertBy, hx]
  | cons y ys ih =>
    obtain ⟨hy, hys⟩ := List.pairwise_cons.mp hs
    unfold insertBy
    by_cases hxy : lt x y = true
    · rw [if_pos hxy]
      have hpy : p y = false := by
        cases hpy : p y
        · rfl
        · exfalso
          have h1 := hcls y hpy
          rw [hxy] at h1
          exact Bool.noConfusion h1
      have hrest : (List.filter p ys) = [] := by
        rw [List.filter_eq_nil_iff]
        intro z hz hpz
        have h1 : lt x z = true := ltle x y z hxy (hy z hz)
        have h2 : lt x z = false := hcls z (by simpa using hpz)
        rw [h1] at h2
        exact Bool.noConfusion h2
      simp [List.filter_cons, hx, hpy, hrest]
    · rw [if_neg hxy]
      cases hpy : p y <;> simp [List.filter_cons, hpy, ih hys]

theorem filter_foldl_insertBy {lt : α → α → Bool}
    (asym : ∀ a b, lt a b = true → lt b a = false)
    (ltle : ∀ a b c, lt a b = true → lt c b = false → lt a c = true)
    {p : α → Bool} (hcls : ∀ a b, p a = true → p b = true → lt a b = false)
    (l : List α) :
    ∀ acc : List α, acc.Pairwise (fun a b => lt b a = false) →
      (List.foldl (fun acc x => insertBy lt x acc) acc l).filter p =
        acc.filter p ++ l.filter p := by
  induction l with
  | nil => intro acc _; simp
  | cons x xs ih =>
    intro acc hacc
    have step := ih (insertBy lt x acc) (pairwise_insertBy asym ltle x hacc)
    show (List.foldl (fun acc x => insertBy lt x acc) (insertBy lt x acc) xs).filter p = _
    rw [step]
    cases hpx : p x
    · rw [filter_insertBy_neg hpx]
      simp [List.filter_cons, hpx]
    · rw [filter_insertBy_pos ltle hpx (fun b hb => hcls x b hpx hb) hacc]
      simp [List.filter_cons, hpx]

theorem filter_jsSort {lt : α → α → Bool}
    (asym : ∀ a b, lt a b = true → lt b a = false)
    (ltle : ∀ a b c, lt a b = true → lt c b = false → lt a c = true)
    {p : α → Bool} (hcls : ∀ a b, p a = true → p b = true → lt a b = false)
    (l : List α) :
    (jsSort lt l).filter p = l.filter p := by
  simpa using filter_foldl_insertBy asym ltle hcls l [] (by simp)

theorem standingsLt_iff (a b : Standing) :
    standingsLt a b = true ↔ (b.wins < a.wins ∨ (b.wins = a.wins ∧ b.points < a.points)) := by
  unfold standingsLt standingsCmp
  rw [decide_eq_true_iff]
  by_cases h : b.wins = a.wins
  · rw [if_neg (not_not_intro h), sub_neg]
    constructor
    · intro h1
      exact Or.inr ⟨h, h1⟩
    · rintro (h1 | ⟨h1, h2⟩)
      · omega
      · exact h2
  · rw [if_pos h, sub_neg]
    constructor
    · intro h1
      exact Or.inl (by exact_mod_cast h1)
    · rintro (h1 | ⟨h1, h2⟩)
      · exact_mod_cast h1
      · exact absurd h1 h

theorem standingsLt_asym (a b : Standing) (h : standingsLt a b = true) :
    standingsLt b a = false := by
  cases h2 : standingsLt b a with
  | false => rfl
  | true =>
    exfalso
    rw [standingsLt_iff] at h h2
    rcases h with h | ⟨h1, h2'⟩ <;> rcases h2 with g | ⟨g1, g2⟩
    · omega
    · omega
    · omega
    · exact lt_asymm h2' g2

theorem standingsLt_ltle (a b c : Standing) (h1 : standingsLt a b = true)
    (h2 : standingsLt c b = false) : standingsLt a c = true := by
  rw [standingsLt_iff] at h1 ⊢
  have h2' : ¬ (b.wins < c.wins ∨ (b.wins = c.wins ∧ b.points < c.points)) := by
    intro hcon
    rw [(standingsLt_iff c b).mpr hcon] at h2
    exact Bool.noConfusion h2
  push_neg at h2'
  obtain ⟨hw, hp⟩ := h2'
  rcases h1 with h | ⟨hwins, hpts⟩
  · exact Or.inl (by omega)
  · by_cases hw2 : b.wins = c.wins
    · refine Or.inr ⟨by omega, lt_of_le_of_lt (hp hw2) hpts⟩
    · exact Or.inl (by omega)

theorem rosterLt_iff (a b : RosterEntry) :
    rosterLt a b = true ↔
      ((a.isStarter = true ∧ b.isStarter = false) ∨
        (a.isStarter = b.isStarter ∧ slotPrio a.slotPosition < slotPrio b.slotPosition)) := by
  unfold rosterLt rosterCmp
  rw [decide_eq_true_iff]
  cases ha : a.isStarter <;> cases hb : b.isStarter <;> simp <;> omega

theorem rosterLt_asym (a b : RosterEntry) (h : rosterLt a b = true) :
    rosterLt b a = false := by
  cases h2 : rosterLt b a with
  | false => rfl
  | true =>
    exfalso
    rw [rosterLt_iff] at h h2
    rcases h with ⟨h1, h2'⟩ | ⟨h1, h2'⟩ <;> rcases h2 with ⟨g1, g2⟩ | ⟨g1, g2⟩ <;>
      simp_all <;> omega

theorem rosterLt_ltle (a b c : RosterEntry) (h1 : rosterLt a b = true)
    (h2 : rosterLt c b = false) : rosterLt a c = true := by
  have h2' : ¬ ((c.isStarter = true ∧ b.isStarter = false) ∨
      (c.isStarter = b.isStarter ∧ slotPrio c.slotPosition < slotPrio b.slotPosition)) := by
    intro hcon
    rw [(rosterLt_iff c b).mpr hcon] at h2
    exact Bool.noConfusion h2
  rw [rosterLt_iff] at h1 ⊢
  cases ha : a.isStarter <;> cases hb : b.isStarter <;> cases hc : c.isStarter <;>
    simp_all <;> omega

theorem matchupLt_iff (a b : MatchupEntry) :
    matchupLt a b = true ↔ slotPrio a.position < slotPrio b.position := by
  unfold matchupLt matchupCmp
  rw [decide_eq_true_iff]
  omega

theorem matchupLt_asym (a b : MatchupEntry) (h : matchupLt a b = true) :
    matchupLt b a = false := by
  cases h2 : matchupLt b a with
  | false => rfl
  | true =>
    exfalso
    rw [matchupLt_iff] at h h2
    omega

theorem matchupLt_ltle (a b c : MatchupEntry) (h1 : matchupLt a b = true)
    (h2 : matchupLt c b = false) : matchupLt a c = true := by
  have h2' : ¬ slotPrio c.position < slotPrio b.position := by
    intro hcon
    rw [(matchupLt_iff c b).mpr hcon] at h2
    exact Bool.noConfusion h2
  rw [matchupLt_iff] at h1 ⊢
  omega

theorem filter_bne_eq_removeEmpties (ws : List String) :
    ws.filter (fun year => year != "") = removeEmpties ws := by
  induction ws with
  | nil => rfl
  | cons y ys ih =>
    by_cases h : y = ""
    · simp [List.filter_cons, removeEmpties, h, ih]
    · simp [List.filter_cons, removeEmpties, h, ih]

theorem champsFilter_eq_removeEmpties (o : Option (List String)) :
    champsFilter o = removeEmpties (o.getD []) := by
  cases o with
  | none => rfl
  | some ws => exact filter_bne_eq_removeEmpties ws

theorem foldl_add_eq_sum (l : List ℚ) :
    ∀ init : ℚ, l.foldl (fun a b => a + b) init = init + l.sum := by
  induction l with
  | nil => intro init; simp
  | cons x xs ih =>
    intro init
    rw [List.foldl_cons, ih, List.sum_cons]
    ring

theorem jsOrZero_eq_getD (o : Option ℚ) : jsOrZero o = o.getD 0 := by
  cases o with
  | none => rfl
  | some v =>
    unfold jsOrZero
    by_cases h : v = 0
    · simp [h]
    · simp [h]

theorem buildTeamMap_aux (i : Int) (teams : List Team) :
    ∀ f : Int → Option TeamMapEntry, (∀ t ∈ teams, t.id ≠ i) →
      (teams.foldl
        (fun teamMap team => fun j =>
          if j == team.id then some { name := team.name, id := team.id } else teamMap j)
        f) i = f i := by
  induction teams with
  | nil => intro f _; rfl
  | cons t ts ih =>
    intro f h
    rw [List.foldl_cons, ih _ (fun u hu => h u (List.mem_cons_of_mem t hu))]
    have : (i == t.id) = false := by
      have := h t (List.mem_cons_self t ts)
      simp [this.symm]
    simp [this]

theorem buildTeamMap_not_mem (teams : List Team) (i : Int)
    (h : ∀ t ∈ teams, t.id ≠ i) : buildTeamMap teams i = none :=
  buildTeamMap_aux i teams _ h

/-- C1: the Standings Builder's output is sorted by wins descending with
ties broken by total points scored descending — every adjacent pair
satisfies earlier.wins > later.wins or (equal wins and earlier.points ≥
later.points) — and entries tied on both wins and points keep their input
relative order (the sort is stable). -/
theorem standings_sorted_stable (td : TeamsData) (division : String)
    (leagueInfo : LeagueInfo) (teams : List Team) :
    ((getLeagueData td division leagueInfo teams).standings).Chain'
      (fun a b => a.wins > b.wins ∨ (a.wins = b.wins ∧ a.points ≥ b.points))
    ∧ ∀ (w : Int) (q : ℚ),
      ((getLeagueData td division leagueInfo teams).standings).filter
          (fun s => decide (s.wins = w ∧ s.points = q)) =
        (teams.map (mkStanding td division)).filter
          (fun s => decide (s.wins = w ∧ s.points = q)) := by
  constructor
  · have hp := pairwise_jsSort standingsLt_asym standingsLt_ltle
      (teams.map (mkStanding td division))
    refine List.Pairwise.chain' (hp.imp ?_)
    intro a b hab
    have hnot : ¬ (a.wins < b.wins ∨ (a.wins = b.wins ∧ a.points < b.points)) := by
      intro hcon
      rw [(standingsLt_iff b a).mpr hcon] at hab
      exact Bool.noConfusion hab
    push_neg at hnot
    obtain ⟨hw, hq⟩ := hnot
    by_cases he : a.wins = b.wins
    · exact Or.inr ⟨he, hq he⟩
    · exact Or.inl (by omega)
  · intro w q
    refine filter_jsSort standingsLt_asym standingsLt_ltle ?_ _
    intro a b ha hb
    obtain ⟨ha1, ha2⟩ := of_decide_eq_true ha
    obtain ⟨hb1, hb2⟩ := of_decide_eq_true hb
    cases h : standingsLt a b with
    | false => rfl
    | true =>
      exfalso
      rw [standingsLt_iff] at h
      rcases h with h | ⟨h1, h2⟩
      · omega
      · rw [ha2, hb2] at h2
        exact lt_irrefl q h2

/-- C2: the ownership join of the Standings Builder is total — the output
is a permutation of one record per input team (in particular one output
record for each team) — and a team id without a registry entry for its
division gets owner "" and championships [] rather than an error. -/
theorem standings_join_total (td : TeamsData) (division : String)
    (leagueInfo : LeagueInfo) (teams : List Team) (t : Team) :
    ((getLeagueData td division leagueInfo teams).standings).Perm
      (teams.map (mkStanding td division))
    ∧ ((getLeagueData td division leagueInfo teams).standings).length = teams.length
    ∧ (td division (toString t.id) = none →
        mkStanding td division t =
          { id := t.id, name := t.name, owner := "", championships := [],
            wins := t.wins, losses := t.losses, ties := t.ties,
            points := t.totalPointsScored,
            pointsAgainst := t.regularSeasonPointsAgainst }) := by
  refine ⟨jsSort_perm _ _, ?_, ?_⟩
  · show (jsSort standingsLt (teams.map (mkStanding td division))).length = teams.length
    rw [(jsSort_perm _ _).length_eq, List.length_map]
  · intro h
    simp [mkStanding, h, jsOrEmpty, champsFilter]

/-- C3: at every place championships are emitted — the standings record,
the roster payload and both sides of the matchup payload — the exposed
list is the registry's championship-year list with exactly the
empty-string entries removed and all others preserved in order
(`removeEmpties` is the spec-side definition of that filtering). -/
theorem championships_filtered (ws : List String) (td : TeamsData)
    (division teamId : String) (t : Team) (pid : Option Int)
    (bx matchup : Boxscore) (teams : List Team) :
    champsFilter (some ws) = removeEmpties ws
    ∧ (mkStanding td division t).championships =
        removeEmpties (rawWins td division (toString t.id))
    ∧ (mkRosterPayload td division teamId pid bx teams).championships =
        removeEmpties (rawWins td division teamId)
    ∧ (mkMatchupPayload td division matchup teams).homeChampionships =
        removeEmpties (rawWins td division (toString matchup.homeTeamId))
    ∧ (mkMatchupPayload td division matchup teams).awayChampionships =
        removeEmpties (rawWins td division (toString matchup.awayTeamId)) := by
  refine ⟨?_, ?_, ?_, ?_, ?_⟩
  · exact filter_bne_eq_removeEmpties ws
  · exact champsFilter_eq_removeEmpties _
  · exact champsFilter_eq_removeEmpties _
  · exact champsFilter_eq_removeEmpties _
  · exact champsFilter_eq_removeEmpties _

/-- C4: the Roster Formatter's output never places a non-starter before a
starter (so starters form a prefix and bench/IR a suffix), adjacent
entries of the same partition have non-decreasing slot priority, entries
with equal partition and priority keep provider order (stable sort), and
the priority table is QB=1, RB=2, WR=3, TE=4, FLEX=5, RB/WR/TE=5, D/ST=6,
K=7, Bench=99, IR=100 with unrecognized slots defaulting to 99. -/
theorem roster_sorted_partitioned (roster : List Player) :
    (formattedRoster roster).Pairwise (fun a b => b.isStarter = true → a.isStarter = true)
    ∧ (formattedRoster roster).Chain'
        (fun a b => a.isStarter = b.isStarter →
          slotPrio a.slotPosition ≤ slotPrio b.slotPosition)
    ∧ (∀ (s : Bool) (k : Int),
        (formattedRoster roster).filter
            (fun e => decide (e.isStarter = s ∧ slotPrio e.slotPosition = k)) =
          (roster.map mkRosterEntry).filter
            (fun e => decide (e.isStarter = s ∧ slotPrio e.slotPosition = k)))
    ∧ slotPrio "QB" = 1 ∧ slotPrio "RB" = 2 ∧ slotPrio "WR" = 3 ∧ slotPrio "TE" = 4
    ∧ slotPrio "FLEX" = 5 ∧ slotPrio "RB/WR/TE" = 5 ∧ slotPrio "D/ST" = 6 ∧ slotPrio "K" = 7
    ∧ slotPrio "Bench" = 99 ∧ slotPrio "IR" = 100
    ∧ ∀ s : String,
        s ∉ (["QB", "RB", "WR", "TE", "FLEX", "RB/WR/TE", "D/ST", "K", "Bench", "IR"] :
          List String) → slotPrio s = 99 := by
  have hp := pairwise_jsSort rosterLt_asym rosterLt_ltle (roster.map mkRosterEntry)
  refine ⟨?_, ?_, ?_, by decide, by decide, by decide, by decide, by decide, by decide,
    by decide, by decide, by decide, by decide, ?_⟩
  · refine hp.imp ?_
    intro a b hab hb
    cases ha : a.isStarter with
    | true => rfl
    | false =>
      exfalso
      have : rosterLt b a = true := (rosterLt_iff b a).mpr (Or.inl ⟨hb, ha⟩)
      rw [this] at hab
      exact Bool.noConfusion hab
  · refine List.Pairwise.chain' (hp.imp ?_)
    intro a b hab heq
    by_contra hlt
    rw [not_le] at hlt
    have : rosterLt b a = true := (rosterLt_iff b a).mpr (Or.inr ⟨heq.symm, hlt⟩)
    rw [this] at hab
    exact Bool.noConfusion hab
  · intro s k
    refine filter_jsSort rosterLt_asym rosterLt_ltle ?_ _
    intro a b ha hb
    obtain ⟨ha1, ha2⟩ := of_decide_eq_true ha
    obtain ⟨hb1, hb2⟩ := of_decide_eq_true hb
    cases h : rosterLt a b with
    | false => rfl
    | true =>
      exfalso
      rw [rosterLt_iff] at h
      rcases h with ⟨h1, h2⟩ | ⟨h1, h2⟩
      · rw [ha1, hb1] at *
        simp_all
      · omega
  · intro s hs
    simp only [List.mem_cons, List.not_mem_nil, or_false, not_or] at hs
    obtain ⟨h1, h2, h3, h4, h5, h6, h7, h8, h9, h10⟩ := hs
    simp [slotPrio, positionOrder, h1, h2, h3, h4, h5, h6, h7, h8, h9, h10]

/-- C5: the Matchup Detail Formatter's roster output contains no Bench or
IR entry; a formatted player's projected value is 0 when no
projected-point breakdown is present and otherwise the sum of all values
of the breakdown mapping, and points defaults to 0 when absent. -/
theorem matchup_roster_starters_projected (roster : List Player) (p : Player) :
    (∀ e ∈ formatRoster roster, e.position ≠ "Bench" ∧ e.position ≠ "IR")
    ∧ ((mkMatchupEntry p).projected =
        match p.projectedPointBreakdown with
        | some breakdown => (breakdown.map Prod.snd).sum
        | none => 0)
    ∧ (mkMatchupEntry p).points = p.totalPoints.getD 0 := by
  refine ⟨?_, ?_, jsOrZero_eq_getD p.totalPoints⟩
  · intro e he
    have hmem := (jsSort_perm _ _).mem_iff.mp he
    obtain ⟨q, hq, rfl⟩ := List.mem_map.mp hmem
    obtain ⟨hq1, hq2⟩ := List.mem_filter.mp hq
    have := Bool.and_eq_true_iff.mp hq2
    constructor
    · exact bne_iff_ne.mp this.1
    · exact bne_iff_ne.mp this.2
  · cases hbd : p.projectedPointBreakdown with
    | none => simp [mkMatchupEntry, hbd]
    | some breakdown =>
      simp only [mkMatchupEntry, hbd]
      rw [foldl_add_eq_sum, zero_add]

theorem locateMatchup_symm (boxscores : List Boxscore) (x y : Option Int) :
    locateMatchup boxscores x y = locateMatchup boxscores y x := by
  unfold locateMatchup
  congr 1
  funext box
  exact Bool.or_comm _ _

/-- C6: matchup-detail lookup is symmetric in its two team-id arguments —
for every boxscore set and id pair the located boxscore is the same in
both request orders, and the whole matchup handler gives identical
responses for swapped arguments. -/
theorem matchup_pair_symmetric (boxscores : List Boxscore) (td : TeamsData)
    (division x y : String) (fetch : Except String (List Boxscore × List Team)) :
    locateMatchup boxscores (parseIntJS x) (parseIntJS y) =
      locateMatchup boxscores (parseIntJS y) (parseIntJS x)
    ∧ matchupHandler td division x y fetch = matchupHandler td division y x fetch := by
  refine ⟨locateMatchup_symm _ _ _, ?_⟩
  unfold matchupHandler
  by_cases hd : (["green", "white"] : List String).contains division
  · rw [hd]
    cases fetch with
    | error e => rfl
    | ok pr =>
      obtain ⟨boxes, teams⟩ := pr
      simp only
      rw [locateMatchup_symm]
  · rw [Bool.eq_false_iff.mpr hd]
    simp

/-- C7: the Matchup Summarizer is total — one summary entry per boxscore
in provider order — and a home or away team id absent from the team
sequence yields the literal team name "Unknown" rather than throwing. -/
theorem matchups_total_unknown (scoreboard : List Boxscore) (teams : List Team) :
    (getMatchups scoreboard teams).length = scoreboard.length
    ∧ (∀ i : Nat, (getMatchups scoreboard teams)[i]? =
        (scoreboard[i]?).map (summarizeOne teams))
    ∧ ∀ m : Boxscore,
        ((∀ t ∈ teams, t.id ≠ m.homeTeamId) → (summarizeOne teams m).homeTeam = "Unknown")
        ∧ ((∀ t ∈ teams, t.id ≠ m.awayTeamId) → (summarizeOne teams m).awayTeam = "Unknown") := by
  refine ⟨List.length_map _ _, fun i => List.getElem?_map .., fun m => ⟨?_, ?_⟩⟩
  · intro h
    show jsNameOrM (buildTeamMap teams m.homeTeamId) = "Unknown"
    rw [buildTeamMap_not_mem teams _ h]
    rfl
  · intro h
    show jsNameOrM (buildTeamMap teams m.awayTeamId) = "Unknown"
    rw [buildTeamMap_not_mem teams _ h]
    rfl

/-- C8: a roster query whose team id appears in no fetched boxscore, and a
matchup-detail query whose id pair matches no fetched boxscore in either
orientation, both produce the distinct not-found response, which is a
different constructor from the upstream-error response. -/
theorem notfound_distinct_from_upstream (td : TeamsData) (division teamId hstr astr : String)
    (boxes : List Boxscore) (teams : List Team)
    (hd : (["green", "white"] : List String).contains division = true)
    (hro : ∀ b ∈ boxes,
      (idEq b.homeTeamId (parseIntJS teamId) || idEq b.awayTeamId (parseIntJS teamId)) = false)
    (hmu : ∀ b ∈ boxes,
      ((idEq b.homeTeamId (parseIntJS hstr) && idEq b.awayTeamId (parseIntJS astr)) ||
        (idEq b.homeTeamId (parseIntJS astr) && idEq b.awayTeamId (parseIntJS hstr))) = false) :
    rosterHandler td division teamId (Except.ok (boxes, teams)) = (RosterResp.notFound, true)
    ∧ matchupHandler td division hstr astr (Except.ok (boxes, teams)) =
        (MatchupResp.notFound, true)
    ∧ (∀ e, RosterResp.notFound ≠ RosterResp.upstreamError e)
    ∧ (∀ e, MatchupResp.notFound ≠ MatchupResp.upstreamError e) := by
  have hfr : boxes.find? (fun box =>
      idEq box.homeTeamId (parseIntJS teamId) || idEq box.awayTeamId (parseIntJS teamId)) =
        none :=
    List.find?_eq_none.mpr (fun b hb => by rw [hro b hb]; exact Bool.noConfusion)
  have hfm : locateMatchup boxes (parseIntJS hstr) (parseIntJS astr) = none :=
    List.find?_eq_none.mpr (fun b hb => by rw [hmu b hb]; exact Bool.noConfusion)
  refine ⟨?_, ?_, fun e h => RosterResp.noConfusion h, fun e h => MatchupResp.noConfusion h⟩
  · unfold rosterHandler
    rw [hd]
    simp only [Bool.not_true, Bool.false_eq_true, if_false]
    rw [hfr]
  · unfold matchupHandler
    rw [hd]
    simp only [Bool.not_true, Bool.false_eq_true, if_false]
    rw [hfm]

/-- C9 counterexample: on the concrete request division "green", team id
"abc" (non-numeric), the roster handler runs its upstream-fetch phase
(second component true) and answers not-found, not a validation error —
so malformed team ids are not reported before any upstream call. -/
theorem validation_counterexample :
    (rosterHandler (fun _ _ => none) "green" "abc" (Except.ok ([], []))).2 = true
    ∧ (rosterHandler (fun _ _ => none) "green" "abc" (Except.ok ([], []))).1 =
        RosterResp.notFound
    ∧ RosterResp.notFound ≠ RosterResp.invalidDivision := by
  refine ⟨rfl, rfl, fun h => RosterResp.noConfusion h⟩

/-- C9 (amended): an invalid division token is rejected before any
upstream call with the validation status, which is distinct from the
upstream-error status; a malformed (non-numeric) team id, however, is not
validated — the handler runs its upstream fetches and the NaN id matches
no boxscore, yielding the not-found status. -/
theorem validation_amended (td : TeamsData) (division teamId : String)
    (hstr astr : String) (fetch : Except String (List Boxscore × List Team))
    (boxes : List Boxscore) (teams : List Team) :
    (division ≠ "green" → division ≠ "white" →
      rosterHandler td division teamId fetch = (RosterResp.invalidDivision, false)
      ∧ matchupHandler td division hstr astr fetch = (MatchupResp.invalidDivision, false))
    ∧ (∀ e, RosterResp.invalidDivision ≠ RosterResp.upstreamError e)
    ∧ (∀ e, MatchupResp.invalidDivision ≠ MatchupResp.upstreamError e)
    ∧ (parseIntJS teamId = none →
        (["green", "white"] : List String).contains division = true →
        rosterHandler td division teamId (Except.ok (boxes, teams)) =
          (RosterResp.notFound, true)) := by
  refine ⟨?_, fun e h => RosterResp.noConfusion h, fun e h => MatchupResp.noConfusion h, ?_⟩
  · intro h1 h2
    have hc : (["green", "white"] : List String).contains division = false := by
      simp only [List.contains_cons, List.contains_nil, Bool.or_false]
      simp [beq_eq_false_iff_ne, Ne, h1, h2]
    constructor
    · unfold rosterHandler
      rw [hc]
      rfl
    · unfold matchupHandler
      rw [hc]
      rfl
  · intro hp hd
    have hfr : boxes.find? (fun box =>
        idEq box.homeTeamId (parseIntJS teamId) || idEq box.awayTeamId (parseIntJS teamId)) =
          none := by
      refine List.find?_eq_none.mpr (fun b hb => ?_)
      rw [hp]
      exact Bool.noConfusion
    unfold rosterHandler
    rw [hd]
    simp only [Bool.not_true, Bool.false_eq_true, if_false]
    rw [hfr]

/-- C10: when the located boxscore stores the requested pair in reversed
orientation, the matchup response's home-side fields still describe the
boxscore's stored home team — the request argument order never swaps the
output sides. -/
theorem matchup_orientation_preserved (td : TeamsData) (division hstr astr : String)
    (boxes : List Boxscore) (teams : List Team) (b : Boxscore)
    (hd : (["green", "white"] : List String).contains division = true)
    (hloc : locateMatchup boxes (parseIntJS hstr) (parseIntJS astr) = some b)
    (hrev : idEq b.homeTeamId (parseIntJS astr) = true ∧
      idEq b.awayTeamId (parseIntJS hstr) = true) :
    matchupHandler td division hstr astr (Except.ok (boxes, teams)) =
      (MatchupResp.ok (mkMatchupPayload td division b teams), true)
    ∧ (mkMatchupPayload td division b teams).homeScore = b.homeScore
    ∧ (mkMatchupPayload td division b teams).homeRoster = formatRoster b.homeRoster
    ∧ (mkMatchupPayload td division b teams).homeTeam =
        jsNameOrT (teams.find? (fun t => t.id == b.homeTeamId))
    ∧ (mkMatchupPayload td division b teams).homeOwner =
        jsOrEmpty ((td division (toString b.homeTeamId)).bind OwnerInfo.owner)
    ∧ (mkMatchupPayload td division b teams).homeChampionships =
        champsFilter ((td division (toString b.homeTeamId)).bind OwnerInfo.wins) := by
  refine ⟨?_, rfl, rfl, rfl, rfl, rfl⟩
  unfold matchupHandler
  rw [hd]
  simp only [Bool.not_true, Bool.false_eq_true, if_false]
  rw [hloc]

/-- Witness for C1 at a concrete two-team league with equal wins. -/
theorem standings_sorted_stable_witness :
    ((getLeagueData (fun _ _ => none) "green" ⟨"L", 1, 1⟩
        [⟨1, "A", 8, 2, 0, 1200, 0⟩, ⟨2, "B", 8, 2, 0, 1150, 0⟩]).standings).Chain'
      (fun a b => a.wins > b.wins ∨ (a.wins = b.wins ∧ a.points ≥ b.points)) :=
  (standings_sorted_stable (fun _ _ => none) "green" ⟨"L", 1, 1⟩
    [⟨1, "A", 8, 2, 0, 1200, 0⟩, ⟨2, "B", 8, 2, 0, 1150, 0⟩]).1

/-- Witness for C2: a team absent from an empty registry gets empty owner
and championships. -/
theorem standings_join_total_witness :
    mkStanding (fun _ _ => none) "green" ⟨1, "A", 8, 2, 0, 1200, 0⟩ =
      { id := 1, name := "A", owner := "", championships := [], wins := 8, losses := 2,
        ties := 0, points := 1200, pointsAgainst := 0 } :=
  (standings_join_total (fun _ _ => none) "green" ⟨"L", 1, 1⟩ []
    ⟨1, "A", 8, 2, 0, 1200, 0⟩).2.2 rfl

/-- Witness for C3 on a concrete championship list with an empty entry. -/
theorem championships_filtered_witness :
    champsFilter (some ["2019", "", "2021"]) = removeEmpties ["2019", "", "2021"]
    ∧ removeEmpties ["2019", "", "2021"] = ["2019", "2021"] :=
  ⟨(championships_filtered ["2019", "", "2021"] (fun _ _ => none) "green" "1"
      ⟨1, "A", 0, 0, 0, 0, 0⟩ none ⟨1, 2, 0, 0, [], []⟩ ⟨1, 2, 0, 0, [], []⟩ []).1,
    by decide⟩

/-- Witness for C4: an unrecognized slot string gets default priority 99. -/
theorem roster_sorted_partitioned_witness : slotPrio "SUPERFLEX" = 99 := by
  have h := roster_sorted_partitioned []
  exact h.2.2.2.2.2.2.2.2.2.2.2.2.2 "SUPERFLEX" (by decide)

/-- Witness for C5: breakdown a=1.5, b=2.5 gives projected 4, absent
points give 0, and the formatted entry is not a Bench entry. -/
theorem matchup_roster_starters_projected_witness :
    (mkMatchupEntry ⟨"A", "QB", "KC", "QB", none, some [("a", 1.5), ("b", 2.5)]⟩).projected = 4
    ∧ (mkMatchupEntry ⟨"A", "QB", "KC", "QB", none, some [("a", 1.5), ("b", 2.5)]⟩).points = 0
    ∧ (mkMatchupEntry
        ⟨"A", "QB", "KC", "QB", none, some [("a", 1.5), ("b", 2.5)]⟩).position ≠ "Bench" := by
  have h := matchup_roster_starters_projected
    [⟨"A", "QB", "KC", "QB", none, some [("a", 1.5), ("b", 2.5)]⟩]
    ⟨"A", "QB", "KC", "QB", none, some [("a", 1.5), ("b", 2.5)]⟩
  have hm : formatRoster
      [(⟨"A", "QB", "KC", "QB", none, some [("a", 1.5), ("b", 2.5)]⟩ : Player)] =
        [mkMatchupEntry ⟨"A", "QB", "KC", "QB", none, some [("a", 1.5), ("b", 2.5)]⟩] := rfl
  refine ⟨h.2.1.trans (by norm_num), h.2.2.trans rfl, ?_⟩
  exact (h.1 _ (by rw [hm]; exact List.mem_singleton.mpr rfl)).1

/-- Witness for C6 at a concrete boxscore stored in reversed orientation. -/
theorem matchup_pair_symmetric_witness :
    matchupHandler (fun _ _ => none) "green" "1" "2"
        (Except.ok ([⟨2, 1, 10, 7, [], []⟩], [])) =
      matchupHandler (fun _ _ => none) "green" "2" "1"
        (Except.ok ([⟨2, 1, 10, 7, [], []⟩], [])) :=
  (matchup_pair_symmetric [⟨2, 1, 10, 7, [], []⟩] (fun _ _ => none) "green" "1" "2"
    (Except.ok ([⟨2, 1, 10, 7, [], []⟩], []))).2

/-- Witness for C7: a boxscore whose home id is absent from an empty team
list summarizes to the name "Unknown". -/
theorem matchups_total_unknown_witness :
    (summarizeOne [] ⟨1, 2, 3, 4, [], []⟩).homeTeam = "Unknown" :=
  ((matchups_total_unknown [⟨1, 2, 3, 4, [], []⟩] []).2.2 ⟨1, 2, 3, 4, [], []⟩).1
    (by intro t ht; cases ht)

/-- Witness for C8: team id 5 appears in no boxscore and pair 5-6 matches
none, so both handlers answer not-found. -/
theorem notfound_distinct_from_upstream_witness :
    rosterHandler (fun _ _ => none) "green" "5" (Except.ok ([⟨1, 2, 0, 0, [], []⟩], [])) =
      (RosterResp.notFound, true)
    ∧ matchupHandler (fun _ _ => none) "green" "5" "6"
        (Except.ok ([⟨1, 2, 0, 0, [], []⟩], [])) = (MatchupResp.notFound, true) := by
  have h := notfound_distinct_from_upstream (fun _ _ => none) "green" "5" "5" "6"
    [⟨1, 2, 0, 0, [], []⟩] [] (by decide) (by decide) (by decide)
  exact ⟨h.1, h.2.1⟩

/-- Witness for the amended C9: division "blue" is rejected without an
upstream call, while a non-numeric team id reaches the upstream phase and
ends in not-found. -/
theorem validation_amended_witness :
    rosterHandler (fun _ _ => none) "blue" "1" (Except.ok ([], [])) =
      (RosterResp.invalidDivision, false)
    ∧ rosterHandler (fun _ _ => none) "green" "xyz" (Except.ok ([], [])) =
      (RosterResp.notFound, true) :=
  ⟨((validation_amended (fun _ _ => none) "blue" "1" "1" "2" (Except.ok ([], [])) [] []).1
      (by decide) (by decide)).1,
    (validation_amended (fun _ _ => none) "green" "xyz" "1" "2" (Except.ok ([], [])) [] []).2.2.2
      (by decide) (by decide)⟩

/-- Witness for C10: requesting pair (1, 2) against a boxscore stored as
home 2, away 1 returns the stored home team's score on the home side. -/
theorem matchup_orientation_preserved_witness :
    matchupHandler (fun _ _ => none) "green" "1" "2"
        (Except.ok ([⟨2, 1, 10, 7, [], []⟩], [])) =
      (MatchupResp.ok (mkMatchupPayload (fun _ _ => none) "green" ⟨2, 1, 10, 7, [], []⟩ []),
        true)
    ∧ (mkMatchupPayload (fun _ _ => none) "green" ⟨2, 1, 10, 7, [], []⟩ []).homeScore = 10 := by
  have h := matchup_orientation_preserved (fun _ _ => none) "green" "1" "2"
    [⟨2, 1, 10, 7, [], []⟩] [] ⟨2, 1, 10, 7, [], []⟩ (by decide) (by decide)
    ⟨by decide, by decide⟩
  exact ⟨h.1, h.2.1.trans rfl⟩

end Hogan
